import Mathlib

/-!
Verification development for the bodhi update-management model
(`bodhi/model/model.py`).  The definitions below are a shallow embedding of
the `Update` aggregate: its comment/karma accounting (`Update.comment`),
request validation (`Update.set_request`), request completion
(`Update.request_complete`), alias assignment (`Update.assign_id`), build-tag
computation (`Update.get_build_tag`), the unpush/untag/obsolete orchestration,
and CVE reconciliation (`update_cves`).  External collaborators (the koji
build system, identity/authorization, mail, bugzilla, the SQLAlchemy session)
are modelled as explicit parameters; database rows become plain structures.
Statuses, requests and actions are kept as the Python string values so that
the string comparisons of the source are translated verbatim.
-/

/-- Row of the `comments` table (class `Comment` in model.py): author name,
karma delta, free text and the anonymous flag. -/
structure Comment where
  author : String
  karma : Int
  text : String
  anonymous : Bool
deriving DecidableEq

/-- Subset of the `releases` table (class `Release`) used by the modelled
operations: the alias id prefix (column `id_prefix`, renamed here) and the
distribution tag `dist_tag`. -/
structure Release where
  id_pfx : String
  dist_tag : String
deriving DecidableEq

/-- Subset of the `builds` table (class `Build`) used by the modelled
operations: the nvr string, the owning package name and the inherited flag. -/
structure Build where
  nvr : String
  package : String
  inherited : Bool
deriving DecidableEq

/-- An (epoch, version, release) triple as produced by `build_evr` on a koji
build dictionary; compared by `rpm.labelCompare`. -/
structure EVR where
  epoch : Option String
  version : String
  release : String
deriving DecidableEq

/-- The koji build-tag gateway together with rpm label comparison, the
external collaborators used by `Update.set_request`: `evr nvr` is
`build_evr(koji.getBuild(nvr))`, `listTagged tag package` is the evr list of
`koji.listTagged(tag, package=package, latest=True)`, and `labelCompare` is
`rpm.labelCompare` on evr triples (negative means the first is older). -/
structure Koji where
  evr : String → EVR
  listTagged : String → String → List EVR
  labelCompare : EVR → EVR → Int

/-- In-memory state of one row of the `updates` table (class `Update`),
restricted to the fields read or written by the modelled operations.
`type_` and `approved` are the `self.type` / `self.approved` attributes
consulted by `set_request` (the security-approval flag), and `stable_karma` /
`unstable_karma` are the configured thresholds consulted by `comment`
(`self.stable_karma` / `self.unstable_karma`). -/
structure Update where
  status : String
  request : Option String
  pushed : Bool
  karma : Int
  type_ : String
  approved : Bool
  stable_karma : Int
  unstable_karma : Int
  alias_ : Option String
  date_pushed : Option Nat
  comments : List Comment
  builds : List Build
  release : Release
deriving DecidableEq

/-- A freshly constructed `Update` row, with the column defaults of
model.py: `status` defaults to `'pending'`, `request` to `'testing'`,
`pushed` to `False`, `karma` to `0`, `alias` to `None` and no comments.
Fields without a column default are parameters. -/
def newUpdate (type_ : String) (approved : Bool) (sk uk : Int)
    (rel : Release) (bs : List Build) : Update :=
  { status := "pending"
    request := some "testing"
    pushed := false
    karma := 0
    type_ := type_
    approved := approved
    stable_karma := sk
    unstable_karma := uk
    alias_ := none
    date_pushed := none
    comments := []
    builds := bs
    release := rel }

/-- Ledger append performed at the end of `Update.comment`:
`Comment(text=text, karma=karma, author=author, anonymous=anonymous)` is
created and appended to `self.comments`. -/
def appendComment (st : Update) (text author : String) (karma : Int)
    (anonymous : Bool) : Update :=
  { st with comments := st.comments ++ [⟨author, karma, text, anonymous⟩] }

/-- `Update.get_build_tag`: base tag is `dist_tag + '-updates'`;
pending/obsolete append `-candidate`, testing appends `-testing`, every
other status (stable, unpushed) uses the bare base tag. -/
def Update.get_build_tag (st : Update) : String :=
  let tag := st.release.dist_tag ++ "-updates"
  if st.status = "pending" ∨ st.status = "obsolete" then tag ++ "-candidate"
  else if st.status = "testing" then tag ++ "-testing"
  else tag

/-- Local state effect of `Update.untag`: the koji untag calls are external;
locally only `self.pushed = False` is set. -/
def Update.untag (st : Update) : Update :=
  { st with pushed := false }

/-- Local state effect of `Update.unpush`: if the current build tag already
ends with `-updates-candidate` the method returns immediately; otherwise the
koji moves are external and locally `pushed = False`, `status = 'pending'`. -/
def Update.unpush (st : Update) : Update :=
  let curtag := Update.get_build_tag st
  if curtag.endsWith "-updates-candidate" then st
  else { st with pushed := false, status := "pending" }

/-- `Update.obsolete`: untag, set `status='obsolete'`, `request=None`, then
`self.comment(...)` with author `'bodhi'`.  That inner comment call passes
karma 0, so it never enters the karma-adjustment branch of `comment` and
reduces to the ledger append, inlined here to keep the definition
structurally recursive. -/
def Update.obsolete (st : Update) (newer : Option String) : Update :=
  let st1 := Update.untag st
  let st2 := { st1 with status := "obsolete", request := none }
  match newer with
  | some n =>
      appendComment st2 ("This update has been obsoleted by " ++ n) "bodhi" 0 false
  | none =>
      appendComment st2 "This update has been obsoleted" "bodhi" 0 false

/-- Karma value after the adjustment block of `Update.comment`:
`mycomments` is the karma list of this author's prior comments; +1 after a
prior -1 (or -1 after a prior +1) swings the total by 2, otherwise the delta
is added directly. -/
def adjustedKarma (st : Update) (author : String) (karma : Int) : Int :=
  let mycomments := (st.comments.filter (fun c => c.author == author)).map Comment.karma
  if karma = 1 ∧ (-1 : Int) ∈ mycomments then st.karma + 2
  else if karma = -1 ∧ (1 : Int) ∈ mycomments then st.karma - 2
  else st.karma + karma

/-- `Update.comment(text, karma, author, anonymous)`: when the comment is not
anonymous, has non-zero karma, and no identical (author, karma) pair was
recorded before, the karma total is adjusted (`adjustedKarma`); if the total
then equals a non-zero `stable_karma` a stable request is auto-set
(`request='stable'`, `pushed=False`, `date_pushed=None`); if the update is in
testing and the total equals a non-zero `unstable_karma` the update is
obsoleted.  In every case the comment itself is appended to the ledger.
Mail notifications are external side effects and are not part of the state. -/
def Update.comment (st : Update) (text : String) (karma : Int)
    (author : String) (anonymous : Bool) : Update :=
  let st3 :=
    if anonymous = false ∧ karma ≠ 0 ∧
       st.comments.filter (fun c => c.author == author && c.karma == karma) = [] then
      let st1 := { st with karma := adjustedKarma st author karma }
      let st2 :=
        if st1.stable_karma ≠ 0 ∧ st1.stable_karma = st1.karma then
          { st1 with request := some "stable", pushed := false, date_pushed := none }
        else st1
      if st2.status = "testing" ∧ st2.unstable_karma ≠ 0 ∧
         st2.karma = st2.unstable_karma then
        Update.obsolete st2 none
      else st2
    else st
  appendComment st3 text author karma anonymous

/-- Broken-update-path test of `Update.set_request` for stable requests: some
build of the update has, in the release's `dist_tag + '-updates'` tag, an
already-tagged build of the same package that compares newer
(`rpm.labelCompare(mybuild, oldBuild) < 0`). -/
def pathBroken (k : Koji) (dist_tag : String) (builds : List Build) : Bool :=
  builds.any (fun build =>
    (k.listTagged (dist_tag ++ "-updates") build.package).any
      (fun old => decide (k.labelCompare (k.evr build.nvr) old < 0)))

/-- Reasons for the `InvalidRequest` exception raised by
`Update.set_request`, one constructor per raise site. -/
inductive ReqError
  | unauthorized
  | unknownAction
  | actionIsStatus
  | duplicateRequest
  | brokenPath
deriving DecidableEq

/-- `Update.set_request(action, pathcheck)`: validation (authorization,
known action, action differs from status and from the pending request),
then the special-cased actions — `unpush` and `obsolete` execute
immediately, an unapproved security update only records the request, a
`stable` request with pathcheck performs the broken-update-path test —
and otherwise the request is recorded (`pushed=False`, `date_pushed=None`)
with an auto-comment.  Every `raise InvalidRequest` becomes `.error`
carrying the state at the raise, so that the theorems can speak about the
state an exception leaves behind.  The authorization check
(`authorized_user(self, identity)`) and the acting user name are external
collaborators passed as `auth` and `user`. -/
def Update.set_request (k : Koji) (auth : Bool) (user : String) (st : Update)
    (action : String) (pathcheck : Bool) : Except (ReqError × Update) Update :=
  if auth = false then .error (.unauthorized, st)
  else if action ∉ (["testing", "stable", "obsolete", "unpush"] : List String) then
    .error (.unknownAction, st)
  else if action = st.status then .error (.actionIsStatus, st)
  else if st.request = some action then .error (.duplicateRequest, st)
  else if action = "unpush" then
    .ok (Update.comment (Update.unpush st) "This update has been unpushed" 0 user false)
  else if action = "obsolete" then
    .ok (Update.obsolete st none)
  else if st.type_ = "security" ∧ st.approved = false then
    .ok { st with request := some action }
  else if action = "stable" ∧ pathcheck = true ∧
          pathBroken k st.release.dist_tag st.builds = true then
    .error (.brokenPath, st)
  else
    .ok (Update.comment
      { st with request := some action, pushed := false, date_pushed := none }
      ("This update has been submitted for " ++ action) 0 user false)

/-- True on an error result of `Update.set_request`, i.e. when the Python
method raised `InvalidRequest`. -/
def reqFails : Except (ReqError × Update) Update → Bool
  | .error _ => true
  | .ok _ => false

/-- State carried by an error result of `Update.set_request`: the update
state at the moment `InvalidRequest` was raised. -/
def reqErrState : Except (ReqError × Update) Update → Option Update
  | .error (_, s) => some s
  | .ok _ => none

/-- `%0.4d` formatting of the alias sequence number. -/
def pad4 (n : Nat) : String :=
  let s := toString n
  if s.length < 4 then String.mk (List.replicate (4 - s.length) '0') ++ s else s

/-- Sequence-number computation of `Update.assign_id`: `db` is the alias
column of every update with a non-null alias, in alias order (the
`Update.query.filter(alias != None).order_by(alias)` result).  An empty
query raises `IndexError`, caught, giving id 1.  Otherwise the last alias is
split on `-` into prefix, year and id; a year different from the current one
resets the id to 0 before incrementing.  A malformed alias (not three
fields, or non-numeric year/id) raises an uncaught `ValueError`, modelled as
`none`. -/
def nextAliasId (db : List String) (year : Nat) : Option Nat :=
  match db.getLast? with
  | none => some 1
  | some last =>
    match last.splitOn "-" with
    | [_, ys, ids] =>
      match ys.toNat?, ids.toNat? with
      | some y, some i => some ((if y = year then i else 0) + 1)
      | _, _ => none
    | _ => none

/-- `Update.assign_id`: keep the current alias when it is neither `None` nor
the literal string `'None'`; otherwise compute the next sequence number and
set `alias` to `id_prefix + '-' + year + '-' + %0.4d`.  `year` is
`time.localtime()[0]`; `none` models the uncaught `ValueError` of a
malformed last alias. -/
def Update.assign_id (db : List String) (year : Nat) (st : Update) :
    Option Update :=
  if st.alias_ ≠ none ∧ st.alias_ ≠ some "None" then some st
  else
    (nextAliasId db year).map (fun i =>
      { st with
          alias_ := some (st.release.id_pfx ++ "-" ++ toString year ++ "-" ++ pad4 i) })

/-- `Update.request_complete`: maps the pending request to a status —
testing and stable set `pushed=True`, `date_pushed=now` and assign an alias
if absent, obsolete sets `pushed=False` — and always clears `request` to
`None` at the end.  `now` is `datetime.utcnow()`; `none` propagates an
uncaught exception from `assign_id`. -/
def Update.request_complete (db : List String) (year now : Nat)
    (st : Update) : Option Update :=
  (if st.request = some "testing" then
     Update.assign_id db year
       { st with pushed := true, date_pushed := some now, status := "testing" }
   else if st.request = some "obsolete" then
     some { st with pushed := false, status := "obsolete" }
   else if st.request = some "stable" then
     Update.assign_id db year
       { st with pushed := true, date_pushed := some now, status := "stable" }
   else some st).map (fun s => { s with request := none })

/-- The many-to-many CVE world seen by `Update.update_cves`: `table` holds
the cve ids of all existing `CVE` rows, `assoc` the (update id, cve id)
pairs of the `update_cve_table` association table. -/
structure CveDB where
  table : List String
  assoc : List (Nat × String)
deriving DecidableEq

/-- The `self.cves` collection of update `u`: cve ids associated with it. -/
def cvesOf (db : CveDB) (u : Nat) : List String :=
  (db.assoc.filter (fun p => p.1 == u)).map Prod.snd

/-- The `cve.updates` backref collection: update ids associated with cve
`c`. -/
def updatesOfCve (db : CveDB) (c : String) : List Nat :=
  (db.assoc.filter (fun p => p.2 == c)).map Prod.fst

/-- `Update.update_cves(cves)` for update `uid`.  First pass, over the
update's current cves: a cve whose id is not in the new list *and* whose
`updates` backref is empty is deleted from the table (with its association
rows); there is no other removal.  Second pass, over the new id list: an
existing row is attached if not yet attached, a missing row is created and
attached. -/
def update_cves (db : CveDB) (uid : Nat) (cves : List String) : CveDB :=
  let db1 := (cvesOf db uid).foldl (fun d c =>
    if c ∉ cves ∧ (updatesOfCve d c).length = 0 then
      { table := d.table.erase c, assoc := d.assoc.filter (fun p => p.2 ≠ c) }
    else d) db
  cves.foldl (fun d cid =>
    if cid ∈ d.table then
      if cid ∈ cvesOf d uid then d
      else { d with assoc := d.assoc ++ [(uid, cid)] }
    else
      { table := d.table ++ [cid], assoc := d.assoc ++ [(uid, cid)] }) db1

/-- Release used by the concrete witness states below. -/
def relW : Release :=
  { id_pfx := "FEDORA", dist_tag := "dist-f9" }

/-- A koji gateway with no tagged builds, for witnesses that never reach the
path check. -/
def kojiNil : Koji :=
  { evr := fun _ => { epoch := none, version := "", release := "" }
    listTagged := fun _ _ => []
    labelCompare := fun _ _ => 0 }

/-- A koji gateway whose `-updates` tag already holds a build that
`labelCompare` ranks newer than anything submitted. -/
def kojiNewer : Koji :=
  { evr := fun _ => { epoch := none, version := "1", release := "1" }
    listTagged := fun _ _ => [{ epoch := none, version := "2", release := "1" }]
    labelCompare := fun _ _ => -1 }

/-- Concrete update in status `'unpushed'` (C10 witness). -/
def stUnpushed : Update :=
  { newUpdate "bugfix" false 3 (-3) relW [] with status := "unpushed", request := none }

/-- Concrete fresh update with `stable_karma = 1`, no unstable threshold
(C1 witness input). -/
def stW1 : Update :=
  { newUpdate "bugfix" false 1 0 relW [] with request := none }

/-- Concrete update in testing whose stable and unstable thresholds are both
1, so a single +1 lands on both at once (C1 counterexample input). -/
def stOverlap : Update :=
  { newUpdate "bugfix" false 1 1 relW [] with status := "testing", request := none }

/-- Concrete update with one prior +1 comment by bob (C2 witness input). -/
def stPrevPlus : Update :=
  { newUpdate "bugfix" false 0 0 relW [] with
      comments := [{ author := "bob", karma := 1, text := "ok", anonymous := false }] }

/-- Concrete update with one prior -1 comment by bob (C2 witness input). -/
def stPrevMinus : Update :=
  { newUpdate "bugfix" false 0 0 relW [] with
      comments := [{ author := "bob", karma := -1, text := "bad", anonymous := false }] }

/-- Concrete update whose status already equals the submitted action
(C3 witness input). -/
def stW3 : Update :=
  { newUpdate "bugfix" false 3 (-3) relW [] with status := "testing", request := none }

/-- Concrete update with a pending testing request and no alias
(C4 witness input). -/
def stW4 : Update :=
  newUpdate "bugfix" false 3 (-3) relW []

/-- Expected result of completing the testing request of `stW4` in year 2008
at time 7 against an empty alias table. -/
def stW4done : Update :=
  { stW4 with pushed := true, date_pushed := some 7, status := "testing",
              alias_ := some "FEDORA-2008-0001", request := none }

/-- CVE world with a single CVE attached to update 1 (C5 failing input). -/
def cveDB0 : CveDB :=
  { table := ["CVE-2009-0001"], assoc := [(1, "CVE-2009-0001")] }

/-- Concrete non-security update with one build (C6 witness input). -/
def stW6 : Update :=
  { newUpdate "bugfix" false 3 (-3) relW
      [{ nvr := "pkg-1-1", package := "pkg", inherited := false }] with
      status := "testing", request := none }

/-- Concrete unapproved security update with one build (C6 and C7
counterexample input): `pushed` is true and `date_pushed` set, so any change
made by `set_request` is visible. -/
def stSec : Update :=
  { newUpdate "security" false 3 (-3) relW
      [{ nvr := "pkg-1-1", package := "pkg", inherited := false }] with
      request := none, pushed := true, date_pushed := some 5 }

/-- Concrete update eligible for a plain testing request (C7 witness
input). -/
def stW7 : Update :=
  { newUpdate "bugfix" false 3 (-3) relW [] with
      request := none, pushed := true, date_pushed := some 5 }

/-- Concrete update that already carries an alias (C8 witness input). -/
def stW8 : Update :=
  { newUpdate "bugfix" false 3 (-3) relW [] with alias_ := some "FEDORA-2007-0012" }

/-- Concrete update whose alias is the literal string `'None'` (C8
counterexample input). -/
def stNoneAlias : Update :=
  { newUpdate "bugfix" false 3 (-3) relW [] with alias_ := some "None" }

/-- Claim C9: a newly created Update row has `request` defaulting to
`'testing'` (not `None`) while its status starts as `'pending'`. -/
theorem new_update_request_default (type_ : String) (approved : Bool)
    (sk uk : Int) (rel : Release) (bs : List Build) :
    (newUpdate type_ approved sk uk rel bs).request = some "testing" ∧
    (newUpdate type_ approved sk uk rel bs).status = "pending" :=
  ⟨rfl, rfl⟩

/-- Claim C10: `get_build_tag` on an update in status `'unpushed'` returns
the bare base tag `dist_tag ++ "-updates"`, the same tag as for status
`'stable'`. -/
theorem unpushed_build_tag_bare (st : Update) (h : st.status = "unpushed") :
    Update.get_build_tag st = st.release.dist_tag ++ "-updates" ∧
    Update.get_build_tag st = Update.get_build_tag { st with status := "stable" } := by
  unfold Update.get_build_tag
  rw [h]
  simp

/-- Witness for `unpushed_build_tag_bare` at a concrete unpushed update. -/
theorem unpushed_build_tag_bare_witness :
    Update.get_build_tag stUnpushed = stUnpushed.release.dist_tag ++ "-updates" ∧
    Update.get_build_tag stUnpushed =
      Update.get_build_tag { stUnpushed with status := "stable" } :=
  unpushed_build_tag_bare stUnpushed (by decide)

/-- Claim C8 (amended): `assign_id` is a no-op on any update whose alias is
non-null and different from the literal string `'None'`: the state, and in
particular the alias, is returned unchanged. -/
theorem assign_id_idempotent_nonnull (db : List String) (year : Nat)
    (st : Update) (a : String) (h1 : st.alias_ = some a) (h2 : a ≠ "None") :
    Update.assign_id db year st = some st := by
  unfold Update.assign_id
  rw [if_pos]
  constructor
  · rw [h1]; exact Option.some_ne_none a
  · rw [h1]
    intro hc
    exact h2 (Option.some.injEq a "None" ▸ congrArg (Option.getD · "") hc)

/-- Witness for `assign_id_idempotent_nonnull` at a concrete aliased
update. -/
theorem assign_id_idempotent_nonnull_witness :
    Update.assign_id [] 2007 stW8 = some stW8 :=
  assign_id_idempotent_nonnull [] 2007 stW8 "FEDORA-2007-0012" rfl (by decide)

/-- Counterexample to claim C8 as stated: an update whose alias is the
non-null literal string `'None'` gets its alias reassigned by `assign_id`. -/
theorem assign_id_none_string_cex :
    stNoneAlias.alias_ = some "None" ∧
    Update.assign_id [] 2009 stNoneAlias ≠ some stNoneAlias ∧
    Update.assign_id [] 2009 stNoneAlias =
      some { stNoneAlias with alias_ := some "FEDORA-2009-0001" } := by
  refine ⟨rfl, ?_, ?_⟩ <;> decide

/-- Claim C3: submitting an action equal to the update's current status, or
equal to its current pending request, always fails (every raise in
`set_request` is an `InvalidRequest`) and leaves the state exactly as it
was: the state carried by the error is the input state. -/
theorem duplicate_request_rejected (k : Koji) (auth : Bool) (user : String)
    (st : Update) (action : String) (pc : Bool)
    (h : action = st.status ∨ st.request = some action) :
    reqFails (Update.set_request k auth user st action pc) = true ∧
    reqErrState (Update.set_request k auth user st action pc) = some st := by
  unfold Update.set_request
  split_ifs with h1 h2 h3 h4 <;>
    first
      | exact ⟨rfl, rfl⟩
      | (exact absurd h (by push_neg; exact ⟨h3, h4⟩))

/-- Witness for `duplicate_request_rejected`: submitting `testing` on an
update already in status `testing`. -/
theorem duplicate_request_rejected_witness :
    reqFails (Update.set_request kojiNil true "lmacken" stW3 "testing" true) = true ∧
    reqErrState (Update.set_request kojiNil true "lmacken" stW3 "testing" true) = some stW3 :=
  duplicate_request_rejected kojiNil true "lmacken" stW3 "testing" true (Or.inl rfl)

/-- Every cve currently attached to `uid` has `uid` in its `updates`
backref, so the deletion guard `len(cve.updates) == 0` of the first pass of
`update_cves` is never satisfied for it. -/
theorem updatesOfCve_ne_nil (db : CveDB) (uid : Nat) (c : String)
    (hc : c ∈ cvesOf db uid) : updatesOfCve db c ≠ [] := by
  unfold cvesOf at hc
  unfold updatesOfCve
  rw [List.mem_map] at hc
  obtain ⟨p, hp, hpc⟩ := hc
  rw [List.mem_filter] at hp
  intro hnil
  have : p.1 ∈ (db.assoc.filter (fun p => p.2 == c)).map Prod.fst := by
    rw [List.mem_map]
    exact ⟨p, by rw [List.mem_filter]; exact ⟨hp.1, by rw [hpc]; exact beq_self_eq_true c⟩, rfl⟩
  rw [hnil] at this
  exact List.not_mem_nil p.1 this

/-- Claim C5 (code demonstration): reconciling the CVE list of update 1 from
one attached CVE down to the empty list leaves the world unchanged — the
removed id is neither detached from the update nor deleted from the table,
because the first pass of `update_cves` only deletes a cve whose `updates`
backref is empty, which can never hold for an attached cve, and no plain
detach is performed at all. -/
theorem update_cves_keeps_removed :
    cvesOf cveDB0 1 = ["CVE-2009-0001"] ∧
    update_cves cveDB0 1 [] = cveDB0 ∧
    cvesOf (update_cves cveDB0 1 []) 1 = ["CVE-2009-0001"] ∧
    "CVE-2009-0001" ∈ (update_cves cveDB0 1 []).table := by
  refine ⟨rfl, ?_, ?_, ?_⟩ <;> decide

/-- `assign_id` only ever writes the alias: every other field is preserved,
and an absent alias is always replaced by a fresh non-null one on success. -/
theorem assign_id_fields (db : List String) (year : Nat) (st st' : Update)
    (h : Update.assign_id db year st = some st') :
    st'.status = st.status ∧ st'.pushed = st.pushed ∧
    st'.date_pushed = st.date_pushed ∧ st'.request = st.request ∧
    (st.alias_ = none → st'.alias_ ≠ none) := by
  unfold Update.assign_id at h
  split_ifs at h with hc
  · obtain rfl : st = st' := by injection h
    exact ⟨rfl, rfl, rfl, rfl, fun hn => absurd hn hc.1⟩
  · rw [Option.map_eq_some'] at h
    obtain ⟨i, _, hst⟩ := h
    subst hst
    exact ⟨rfl, rfl, rfl, rfl, fun _ => Option.some_ne_none _⟩

/-- Claim C4: `request_complete` maps the pending request to the final
status — `testing` gives status testing with `pushed=True`,
`date_pushed=now` and an alias assigned if absent; `stable` the same with
status stable; `obsolete` gives status obsolete with `pushed=False` — and in
every case that returns, `request` is `None` afterward. -/
theorem request_complete_maps_status (db : List String) (year now : Nat)
    (st st' : Update)
    (h : Update.request_complete db year now st = some st') :
    (st.request = some "testing" →
      st'.status = "testing" ∧ st'.pushed = true ∧ st'.date_pushed = some now ∧
      (st.alias_ = none → st'.alias_ ≠ none)) ∧
    (st.request = some "stable" →
      st'.status = "stable" ∧ st'.pushed = true ∧ st'.date_pushed = some now ∧
      (st.alias_ = none → st'.alias_ ≠ none)) ∧
    (st.request = some "obsolete" →
      st'.status = "obsolete" ∧ st'.pushed = false) ∧
    st'.request = none := by
  unfold Update.request_complete at h
  rw [Option.map_eq_some'] at h
  obtain ⟨s, hs, hst⟩ := h
  subst hst
  split_ifs at hs with h1 h2 h3
  · have hf := assign_id_fields _ _ _ _ hs
    refine ⟨fun _ => ⟨hf.1, ?_, ?_, fun ha => hf.2.2.2.2 ha⟩,
            fun hr => absurd (h1 ▸ hr) (by decide), fun hr => absurd (h1 ▸ hr) (by decide), rfl⟩
    · rw [hf.2.1]
    · rw [hf.2.2.1]
  · obtain rfl : { st with pushed := false, status := "obsolete" } = s := by injection hs
    exact ⟨fun hr => absurd (h2 ▸ hr) (by decide),
           fun hr => absurd (h2 ▸ hr) (by decide), fun _ => ⟨rfl, rfl⟩, rfl⟩
  · have hf := assign_id_fields _ _ _ _ hs
    refine ⟨fun hr => absurd (h3 ▸ hr) (by decide),
            fun _ => ⟨hf.1, ?_, ?_, fun ha => hf.2.2.2.2 ha⟩,
            fun hr => absurd (h3 ▸ hr) (by decide), rfl⟩
    · rw [hf.2.1]
    · rw [hf.2.2.1]
  · obtain rfl : st = s := by injection hs
    exact ⟨fun hr => absurd hr h1, fun hr => absurd hr h3, fun hr => absurd hr h2, rfl⟩

/-- Witness for `request_complete_maps_status`: a pending testing request on
an update without an alias, completed at time 7 in year 2008 against an
empty alias table. -/
theorem request_complete_maps_status_witness :
    (stW4.request = some "testing" →
      stW4done.status = "testing" ∧ stW4done.pushed = true ∧
      stW4done.date_pushed = some 7 ∧
      (stW4.alias_ = none → stW4done.alias_ ≠ none)) ∧
    (stW4.request = some "stable" →
      stW4done.status = "stable" ∧ stW4done.pushed = true ∧
      stW4done.date_pushed = some 7 ∧
      (stW4.alias_ = none → stW4done.alias_ ≠ none)) ∧
    (stW4.request = some "obsolete" →
      stW4done.status = "obsolete" ∧ stW4done.pushed = false) ∧
    stW4done.request = none :=
  request_complete_maps_status [] 2008 7 stW4 stW4done (by decide)

/-- The karma total after `Update.comment`: adjusted exactly when the
comment is non-anonymous, has non-zero karma and no identical
(author, karma) pair was recorded before; unchanged otherwise.  The
threshold branches and the ledger append never touch the total. -/
theorem comment_karma (st : Update) (text author : String) (karma : Int)
    (anon : Bool) :
    (Update.comment st text karma author anon).karma =
      if anon = false ∧ karma ≠ 0 ∧
         st.comments.filter (fun c => c.author == author && c.karma == karma) = []
      then adjustedKarma st author karma else st.karma := by
  unfold Update.comment
  split_ifs with h1 <;>
    simp [appendComment, Update.obsolete, Update.untag] <;>
    split_ifs <;>
    simp [appendComment, Update.obsolete, Update.untag]

/-- Claim C2: karma accounting of `Update.comment` for a non-anonymous
author.  A first +1 from an author with no prior comments adds exactly +1;
an identical (author, karma) pair recorded before leaves the total
unchanged; a +1 that reverses the author's prior -1 adds +2, and a -1 that
reverses a prior +1 subtracts 2. -/
theorem karma_unique_per_author (st : Update) (text author : String) :
    (st.comments.filter (fun c => c.author == author) = [] →
       (Update.comment st text 1 author false).karma = st.karma + 1) ∧
    (∀ karma : Int, karma ≠ 0 →
       st.comments.filter (fun c => c.author == author && c.karma == karma) ≠ [] →
       (Update.comment st text karma author false).karma = st.karma) ∧
    (st.comments.filter (fun c => c.author == author && c.karma == (1 : Int)) = [] →
       (-1 : Int) ∈ (st.comments.filter (fun c => c.author == author)).map Comment.karma →
       (Update.comment st text 1 author false).karma = st.karma + 2) ∧
    (st.comments.filter (fun c => c.author == author && c.karma == (-1 : Int)) = [] →
       (1 : Int) ∈ (st.comments.filter (fun c => c.author == author)).map Comment.karma →
       (Update.comment st text (-1) author false).karma = st.karma - 2) := by
  refine ⟨fun hA => ?_, fun karma hk hpair => ?_, fun hpair hmem => ?_, fun hpair hmem => ?_⟩
  · have hpair : st.comments.filter (fun c => c.author == author && c.karma == (1 : Int)) = [] := by
      rw [List.filter_eq_nil_iff] at hA ⊢
      intro c hc
      simp only [Bool.and_eq_true, not_and]
      intro ha
      exact absurd ha (hA c hc)
    rw [comment_karma, if_pos ⟨rfl, by decide, hpair⟩]
    unfold adjustedKarma
    rw [hA]
    simp
  · rw [comment_karma, if_neg]
    intro hcond
    exact hpair hcond.2.2
  · rw [comment_karma, if_pos ⟨rfl, by decide, hpair⟩]
    unfold adjustedKarma
    rw [if_pos ⟨rfl, hmem⟩]
  · rw [comment_karma, if_pos ⟨rfl, by decide, hpair⟩]
    unfold adjustedKarma
    rw [if_neg (fun hc => by exact absurd hc.1 (by decide)), if_pos ⟨rfl, hmem⟩]

/-- Witness for `karma_unique_per_author`: a fresh +1 adds one; a repeated
(bob, +1) pair is ignored; +1 after bob's prior -1 adds two; -1 after bob's
prior +1 subtracts two. -/
theorem karma_unique_per_author_witness :
    (Update.comment stW1 "works" 1 "bob" false).karma = stW1.karma + 1 ∧
    (Update.comment stPrevPlus "again" 1 "bob" false).karma = stPrevPlus.karma ∧
    (Update.comment stPrevMinus "fixed" 1 "bob" false).karma = stPrevMinus.karma + 2 ∧
    (Update.comment stPrevPlus "broke" (-1) "bob" false).karma = stPrevPlus.karma - 2 :=
  ⟨(karma_unique_per_author stW1 "works" "bob").1 (by decide),
   (karma_unique_per_author stPrevPlus "again" "bob").2.1 1 (by decide) (by decide),
   (karma_unique_per_author stPrevMinus "fixed" "bob").2.2.1 (by decide) (by decide),
   (karma_unique_per_author stPrevPlus "broke" "bob").2.2.2 (by decide) (by decide)⟩
theorem stable_karma_exact_threshold (st : Update) (text author : String) (karma : Int)
    (hk : karma ≠ 0)
    (hnodup : st.comments.filter (fun c => c.author == author && c.karma == karma) = [])
    (hsk : st.stable_karma ≠ 0)
    (hnotun : ¬ (st.status = "testing" ∧ st.unstable_karma ≠ 0 ∧
                 adjustedKarma st author karma = st.unstable_karma)) :
    ((Update.comment st text karma author false).request =
      if adjustedKarma st author karma = st.stable_karma then some "stable" else st.request) ∧
    ((Update.comment st text karma author false).pushed =
      if adjustedKarma st author karma = st.stable_karma then false else st.pushed) ∧
    ((Update.comment st text karma author false).date_pushed =
      if adjustedKarma st author karma = st.stable_karma then none else st.date_pushed) := by
  unfold Update.comment
  rw [if_pos ⟨rfl, hk, hnodup⟩]
  dsimp only
  by_cases heq : adjustedKarma st author karma = st.stable_karma
  · rw [if_pos (show st.stable_karma ≠ 0 ∧ st.stable_karma = adjustedKarma st author karma from ⟨hsk, heq.symm⟩)]
    dsimp only
    rw [if_neg hnotun]
    simp [appendComment, heq]
  · rw [if_neg (show ¬ (st.stable_karma ≠ 0 ∧ st.stable_karma = adjustedKarma st author karma) from
          fun hc => heq hc.2.symm)]
    dsimp only
    rw [if_neg hnotun]
    simp [appendComment, heq]

/-- Witness for `stable_karma_exact_threshold`: on a fresh update with
stable_karma 1 a single +1 lands exactly on the threshold and auto-sets the
stable request; on a fresh update with stable_karma 3 the same +1 stays
below the threshold and the request is unchanged. -/
theorem stable_karma_exact_threshold_witness :
    ((Update.comment stW1 "works" 1 "alice" false).request = some "stable" ∧
     (Update.comment stW1 "works" 1 "alice" false).pushed = false ∧
     (Update.comment stW1 "works" 1 "alice" false).date_pushed = none) ∧
    (Update.comment stW4 "works" 1 "alice" false).request = stW4.request := by
  constructor
  · have h := stable_karma_exact_threshold stW1 "works" "alice" 1 (by decide) (by decide)
      (by decide) (by decide)
    have he : adjustedKarma stW1 "alice" 1 = stW1.stable_karma := by decide
    simpa [he] using h
  · have h := (stable_karma_exact_threshold stW4 "works" "alice" 1 (by decide) (by decide)
      (by decide) (by decide)).1
    have he : ¬ adjustedKarma stW4 "alice" 1 = stW4.stable_karma := by decide
    simpa [he] using h

/-- Counterexample to claim C1 as stated: with status testing and both
thresholds equal to 1, a +1 lands exactly on the non-zero stable threshold,
yet after the call the request is `None`, not `'stable'` — the
unstable-karma branch fires on the same total and obsoletes the update. -/
theorem stable_karma_overlap_cex :
    stOverlap.stable_karma ≠ 0 ∧
    adjustedKarma stOverlap "alice" 1 = stOverlap.stable_karma ∧
    (Update.comment stOverlap "good" 1 "alice" false).request ≠ some "stable" ∧
    (Update.comment stOverlap "good" 1 "alice" false).request = none ∧
    (Update.comment stOverlap "good" 1 "alice" false).status = "obsolete" := by
  refine ⟨by decide, by decide, by decide, by decide, by decide⟩

/-- Claim C6 (amended): on an update that does not take the
unapproved-security deferral branch, a stable request with pathcheck fails
with the broken-update-path `InvalidRequest` as soon as some build of the
update has, in the release's `-updates` tag, a same-package build that
`labelCompare` ranks newer; the error carries the input state unchanged
(no mutation before the raise). -/
theorem stable_path_check_raises (k : Koji) (user : String) (st : Update)
    (hst : st.status ≠ "stable")
    (hreq : st.request ≠ some "stable")
    (hsec : ¬ (st.type_ = "security" ∧ st.approved = false))
    (hbroken : ∃ b ∈ st.builds,
        ∃ old ∈ k.listTagged (st.release.dist_tag ++ "-updates") b.package,
          k.labelCompare (k.evr b.nvr) old < 0) :
    Update.set_request k true user st "stable" true = .error (.brokenPath, st) := by
  have hpb : pathBroken k st.release.dist_tag st.builds = true := by
    unfold pathBroken
    rw [List.any_eq_true]
    obtain ⟨b, hb, old, hold, hcmp⟩ := hbroken
    refine ⟨b, hb, ?_⟩
    rw [List.any_eq_true]
    exact ⟨old, hold, decide_eq_true hcmp⟩
  unfold Update.set_request
  rw [if_neg (by decide), if_neg (by decide), if_neg (fun h => hst h.symm),
      if_neg hreq, if_neg (by decide), if_neg (by decide), if_neg hsec,
      if_pos ⟨rfl, rfl, hpb⟩]

/-- Witness for `stable_path_check_raises`: a testing-status bugfix update
whose single build is outranked by an already tagged build. -/
theorem stable_path_check_raises_witness :
    Update.set_request kojiNewer true "lmacken" stW6 "stable" true =
      .error (.brokenPath, stW6) :=
  stable_path_check_raises kojiNewer "lmacken" stW6 (by decide) (by decide)
    (by decide) (by decide)

/-- Counterexample to claim C6 as stated: an unapproved security update with
a broken update path is not rejected — the security branch records the
stable request and returns before the path check runs. -/
theorem security_skips_path_check_cex :
    pathBroken kojiNewer stSec.release.dist_tag stSec.builds = true ∧
    stSec.type_ = "security" ∧ stSec.approved = false ∧
    Update.set_request kojiNewer true "guest" stSec "stable" true =
      .ok { stSec with request := some "stable" } :=
  ⟨rfl, rfl, rfl, rfl⟩

/-- Claim C7 (amended): an authorized, validated testing request on an
update outside the unapproved-security deferral takes the plain path:
`request='testing'`, `pushed=False`, `date_pushed=None` and the auto-comment
appended; this holds for any pathcheck flag since the path check only
guards stable requests. -/
theorem testing_request_plain_path (k : Koji) (user : String) (st : Update)
    (pc : Bool)
    (hst : st.status ≠ "testing")
    (hreq : st.request ≠ some "testing")
    (hsec : ¬ (st.type_ = "security" ∧ st.approved = false)) :
    Update.set_request k true user st "testing" pc =
      .ok (appendComment
        { st with request := some "testing", pushed := false, date_pushed := none }
        "This update has been submitted for testing" user 0 false) := by
  unfold Update.set_request
  rw [if_neg (by decide), if_neg (by decide), if_neg (fun h => hst h.symm),
      if_neg hreq, if_neg (by decide), if_neg (by decide), if_neg hsec,
      if_neg (fun hc => absurd hc.1 (by decide))]
  rfl

/-- Witness for `testing_request_plain_path` at a concrete pending bugfix
update that was previously pushed. -/
theorem testing_request_plain_path_witness :
    Update.set_request kojiNil true "lmacken" stW7 "testing" true =
      .ok (appendComment
        { stW7 with request := some "testing", pushed := false, date_pushed := none }
        "This update has been submitted for testing" "lmacken" 0 false) :=
  testing_request_plain_path kojiNil "lmacken" stW7 true (by decide) (by decide)
    (by decide)

/-- Counterexample to claim C7 as stated: a testing request on an unapproved
security update is deferred like a stable one — the request is recorded but
`pushed` stays true, `date_pushed` stays set and no auto-comment is
appended. -/
theorem security_defers_testing_cex :
    Update.set_request kojiNil true "guest" stSec "testing" true =
      .ok { stSec with request := some "testing" } ∧
    ({ stSec with request := some "testing" } : Update).pushed = true ∧
    ({ stSec with request := some "testing" } : Update).date_pushed = some 5 ∧
    ({ stSec with request := some "testing" } : Update).comments = [] :=
  ⟨rfl, rfl, rfl, rfl⟩
